import Mathlib

/-!
Verification development for the MetaChat repository: a shallow embedding of
the language-model client utility (`utils/openai_utils.py`), the
meta-framework orchestration core (`meta_framework.py`), and the chat
persistence utility (whose module is absent from the source tree and is
therefore modelled from the specification, §4.2).  Python machine-level
details are embedded as follows: dictionaries with fixed key sets become
structures, `ValueError`/`TypeError` become an error inductive, mutable
global/registry state becomes explicit state passing, and the external
chat-completion endpoint becomes an oracle function supplied as a parameter.
-/

/-- One utterance of a chat: the `{"role": ..., "content": ...}` dictionaries
used throughout the source. -/
structure Message where
  role : String
  content : String
deriving DecidableEq, Repr

/-- One entry of a system-prompt registry, as built in `MetaChat.__init__` and
`MetaChat.add_system_prompt`: a dictionary with keys `id`, `name`, `message`,
`model`.  Every dictionary the source ever places in a registry has all four
keys, so the embedding uses a structure (in particular every entry is a
non-empty dictionary, hence truthy in Python's `if existing:` test). -/
structure SystemPrompt where
  id : Int
  name : String
  message : String
  model : String
deriving DecidableEq, Repr

/-- The two kinds of exception the embedded code raises: Python `ValueError`
and `TypeError`, each carrying its message. -/
inductive PyError where
  | valueError (msg : String)
  | typeError (msg : String)
deriving DecidableEq, Repr

/-! ## Language-model client utility: `get_client` (`utils/openai_utils.py`) -/

/-- The constructed API client handle: `OpenAI(api_key=api_key)`.  Only the
key it was constructed from is observable in the embedding. -/
structure OpenAIClient where
  api_key : String
deriving DecidableEq, Repr

/-- Embedding of `get_client`.  The module-level global `client` becomes the
explicit `cached` argument; `os.getenv("OPENAI_API_KEY")` becomes the `env`
argument (`none` when the variable is absent).  Python's `if not api_key`
treats both an absent variable and an empty string as missing.  The result is
the pair (returned value or raised error, global `client` after the call). -/
def get_client (env : Option String) (cached : Option OpenAIClient) :
    Except PyError OpenAIClient × Option OpenAIClient :=
  match cached with
  | some c => (.ok c, some c)
  | none =>
    match env with
    | none =>
      (.error (.valueError "OpenAI API key not set. Please set the OPENAI_API_KEY environment variable."), none)
    | some api_key =>
      if api_key = "" then
        (.error (.valueError "OpenAI API key not set. Please set the OPENAI_API_KEY environment variable."), none)
      else
        (.ok ⟨api_key⟩, some ⟨api_key⟩)

/-! ## Language-model client utility: `add_messages` (`utils/openai_utils.py`) -/

/-- The runtime value passed as `new_messages` to `add_messages`.  The Python
parameter is dynamically typed; the branches of the source distinguish a
single dictionary (a message object), a list, and everything else (for which
it raises `TypeError`).  Strings and integers stand for the "everything else"
class of values. -/
inductive PyValue where
  | dict (m : Message)
  | list (ms : List Message)
  | str (s : String)
  | int (n : Int)
deriving DecidableEq, Repr

/-- Embedding of `add_messages`: `isinstance(new_messages, dict)` appends the
single message, `isinstance(new_messages, list)` concatenates, anything else
raises `TypeError`. -/
def add_messages (messages : List Message) (new_messages : PyValue) :
    Except PyError (List Message) :=
  match new_messages with
  | .dict m => .ok (messages ++ [m])
  | .list ms => .ok (messages ++ ms)
  | _ => .error (.typeError "new_messages must be a dict or a list of dicts")

/-! ## Meta-framework core: the prompt registry (`meta_framework.py`) -/

/-- Instruction text of the built-in registry entry with id 1
(`MetaChat.__init__`). -/
def sales_manager_message : String :=
  "You are a sales manager looking at a chat between a sales assistant and an inquirer. Give advice to the sales assistant on how to better handle the conversation, close the sale, and address the customer\x27s needs. Be specific and actionable."

/-- Instruction text of the built-in registry entry with id 2
(`MetaChat.__init__`). -/
def enhanced_assistant_message : String :=
  "You are a sales assistant who has received advice from your sales manager. Use this advice to improve your response to the customer. Maintain a friendly, helpful tone while implementing the suggested sales techniques."

/-- The built-in two-entry registry `self.system_prompts` set up by
`MetaChat.__init__`. -/
def default_system_prompts : List SystemPrompt :=
  [⟨1, "Sales Manager Advisor", sales_manager_message, "gpt-4o"⟩,
   ⟨2, "Enhanced Sales Assistant", enhanced_assistant_message, "gpt-4o"⟩]

/-- Embedding of `MetaChat.add_system_prompt` acting on the registry list:
`next((p for p in self.system_prompts if p.get("id") == prompt_id), None)`
followed by the duplicate check and the append. -/
def add_system_prompt (prompts : List SystemPrompt) (prompt_id : Int)
    (name message model : String) : Except PyError (List SystemPrompt) :=
  match prompts.find? (fun p => p.id == prompt_id) with
  | some _ =>
    .error (.valueError ("System prompt with ID " ++ toString prompt_id ++ " already exists"))
  | none => .ok (prompts ++ [⟨prompt_id, name, message, model⟩])

/-- The registry held by the `MetaChat` instance after a call to
`add_system_prompt`: a raised exception aborts before the append, so the
registry is unchanged on the error path. -/
def registry_after (prompts : List SystemPrompt) (prompt_id : Int)
    (name message model : String) : List SystemPrompt :=
  match add_system_prompt prompts prompt_id name message model with
  | .ok l => l
  | .error _ => prompts

/-! ## Fence stripping (`generate_json_custom_ai`, `utils/openai_utils.py`)

The source computes `response["text"].replace("```json", "").replace("```", "")`.
Python's `str.replace` deletes every occurrence of the pattern, scanning left
to right and resuming after each deleted occurrence; `removeAllAux` below is
that scan over the character list. -/

/-- The backquote character, obtained from a string literal. -/
def backquote : Char := "`".data.headD 'a'

/-- Left-to-right deletion scan of Python `str.replace(pat, "")`.  While
`skip` is positive the scanner is still consuming a matched occurrence;
at `skip = 0` it tests whether `pat` starts at the current position and
either consumes it (resuming after it) or keeps one character. -/
def removeAllAux (pat : List Char) : Nat → List Char → List Char
  | skip+1, _ :: rest => removeAllAux pat skip rest
  | _+1, [] => []
  | 0, [] => []
  | 0, a :: rest =>
    if pat.isPrefixOf (a :: rest) then removeAllAux pat (pat.length - 1) rest
    else a :: removeAllAux pat 0 rest

/-- Python `s.replace(pat, "")` on character lists (for a non-empty `pat`;
the source only ever uses the non-empty patterns "```json" and "```"). -/
def removeAll (pat s : List Char) : List Char := removeAllAux pat 0 s

/-- The pattern of the first replace call: the characters of "```json". -/
def fence_json_pat : List Char := "```json".data

/-- The pattern of the second replace call: the characters of "```". -/
def fence_pat : List Char := "```".data

/-- Embedding of the cleaning expression
`response["text"].replace("```json", "").replace("```", "")`. -/
def clean_response (t : String) : String :=
  String.mk (removeAll fence_pat (removeAll fence_json_pat t.data))

/-- Scan deciding that a character list contains no occurrence of the fence
marker "```" (no position at which `fence_pat` starts). -/
def fence_free : List Char → Bool
  | [] => true
  | a :: rest => !(fence_pat.isPrefixOf (a :: rest)) && fence_free rest

/-! ## JSON values and `parse_json` (`utils/openai_utils.py`)

`parse_json` wraps `json.loads`, returning `None` instead of raising.  The
parser below models `json.loads` on the JSON fragment this development
evaluates it on: objects, arrays, strings with the common backslash escapes,
integer numerals, `true`, `false`, `null`, and JSON whitespace.  (Fractional
and exponent numerals and `\u` escapes are outside the fragment; an input
using them parses to `none` here.)  Objects are kept as field lists in
source order. -/

/-- A parsed JSON value, as produced by `json.loads`. -/
inductive Json where
  | null
  | bool (b : Bool)
  | num (n : Int)
  | str (s : String)
  | arr (elems : List Json)
  | obj (fields : List (String × Json))

/-- JSON whitespace skipping (space, tab, line feed, carriage return). -/
def skipWs : List Char → List Char
  | [] => []
  | c :: rest =>
    if c = ' ' ∨ c = '\t' ∨ c = '\n' ∨ c = '\r' then skipWs rest else c :: rest

/-- Lookup table of the supported JSON backslash escapes: each escape letter
paired with the character it denotes. -/
def escapeTable : List (Char × Char) :=
  [('"', '"'), ('\\', '\\'), ('/', '/'), ('n', '\n'), ('t', '\t'),
   ('r', '\r'), ('b', Char.ofNat 8), ('f', Char.ofNat 12)]

/-- The character a JSON backslash escape denotes, for the escapes the model
supports. -/
def escChar (e : Char) : Option Char :=
  (escapeTable.find? (fun p => p.1 == e)).map Prod.snd

/-- Parses the body of a JSON string after the opening quote, returning its
characters and the input after the closing quote. -/
def parseStringBody : List Char → Option (List Char × List Char)
  | [] => none
  | '"' :: rest => some ([], rest)
  | '\\' :: e :: rest => do
    let c ← escChar e
    let (cs, r) ← parseStringBody rest
    some (c :: cs, r)
  | c :: rest => do
    let (cs, r) ← parseStringBody rest
    some (c :: cs, r)

/-- Numeric value of a digit list (most significant first). -/
def digitsToNat (ds : List Char) : Nat :=
  ds.foldl (fun acc c => 10 * acc + (c.toNat - '0'.toNat)) 0

/-- Parses a non-empty run of decimal digits. -/
def parseDigits (s : List Char) : Option (Nat × List Char) :=
  let ds := s.takeWhile Char.isDigit
  if ds.isEmpty then none else some (digitsToNat ds, s.drop ds.length)

mutual

/-- Parses one JSON value (after skipping leading whitespace); `fuel` bounds
the recursion depth and is chosen large enough by `parse_json`. -/
def parseValue : Nat → List Char → Option (Json × List Char)
  | 0, _ => none
  | fuel+1, s =>
    match skipWs s with
    | [] => none
    | c :: rest =>
      if c = '\x7b' then parseObjStart fuel rest
      else if c = '[' then parseArrStart fuel rest
      else if c = '"' then
        (parseStringBody rest).map (fun p => (Json.str (String.mk p.1), p.2))
      else if c = 'n' then
        if ['u', 'l', 'l'].isPrefixOf rest then some (Json.null, rest.drop 3) else none
      else if c = 't' then
        if ['r', 'u', 'e'].isPrefixOf rest then some (Json.bool true, rest.drop 3) else none
      else if c = 'f' then
        if ['a', 'l', 's', 'e'].isPrefixOf rest then some (Json.bool false, rest.drop 4) else none
      else if c = '-' then
        (parseDigits rest).map (fun p => (Json.num (-(p.1 : Int)), p.2))
      else if c.isDigit then
        (parseDigits (c :: rest)).map (fun p => (Json.num (p.1 : Int), p.2))
      else none

/-- Parses the inside of a JSON object after the opening brace. -/
def parseObjStart : Nat → List Char → Option (Json × List Char)
  | 0, _ => none
  | fuel+1, s =>
    match skipWs s with
    | '\x7d' :: rest => some (Json.obj [], rest)
    | '"' :: rest => do
      let (k, r1) ← parseStringBody rest
      match skipWs r1 with
      | ':' :: r2 => do
        let (v, r3) ← parseValue fuel r2
        parseObjRest fuel [(String.mk k, v)] r3
      | _ => none
    | _ => none

/-- Parses the continuation of a JSON object after a complete member. -/
def parseObjRest : Nat → List (String × Json) → List Char → Option (Json × List Char)
  | 0, _, _ => none
  | fuel+1, acc, s =>
    match skipWs s with
    | '\x7d' :: rest => some (Json.obj acc, rest)
    | ',' :: rest =>
      match skipWs rest with
      | '"' :: r1 => do
        let (k, r2) ← parseStringBody r1
        match skipWs r2 with
        | ':' :: r3 => do
          let (v, r4) ← parseValue fuel r3
          parseObjRest fuel (acc ++ [(String.mk k, v)]) r4
        | _ => none
      | _ => none
    | _ => none

/-- Parses the inside of a JSON array after the opening bracket. -/
def parseArrStart : Nat → List Char → Option (Json × List Char)
  | 0, _ => none
  | fuel+1, s =>
    match skipWs s with
    | ']' :: rest => some (Json.arr [], rest)
    | s' => do
      let (v, r) ← parseValue fuel s'
      parseArrRest fuel [v] r

/-- Parses the continuation of a JSON array after a complete element. -/
def parseArrRest : Nat → List Json → List Char → Option (Json × List Char)
  | 0, _, _ => none
  | fuel+1, acc, s =>
    match skipWs s with
    | ']' :: rest => some (Json.arr acc, rest)
    | ',' :: rest => do
      let (v, r) ← parseValue fuel rest
      parseArrRest fuel (acc ++ [v]) r
    | _ => none

end

/-- Embedding of `parse_json`: `json.loads` with every failure mapped to
`None`.  A successful parse must consume the whole input up to trailing
whitespace. -/
def parse_json (content : Option String) : Option Json :=
  match content with
  | none => none
  | some s =>
    match parseValue (2 * s.length + 2) s.data with
    | some (v, rest) => if skipWs rest = [] then some v else none
    | none => none

/-- Python truthiness of a parsed JSON value: `None`, `False`, `0`, `""`,
`[]` and the empty dictionary are falsy.  `generate_json_custom_ai` tests
`if not parsed_response:`. -/
def jsonFalsy : Json → Bool
  | .null => true
  | .bool b => !b
  | .num n => n == 0
  | .str s => s == ""
  | .arr l => l.isEmpty
  | .obj l => l.isEmpty

/-! ## `generate_text` results and `generate_json_custom_ai`
(`utils/openai_utils.py`) -/

/-- The dictionary `generate_text` returns: the first completion's text (the
API may yield `None` there) and the usage counters, each defaulted to zero
when usage metadata is absent. -/
structure GenerationResult where
  text : Option String
  usage : Nat
  input_tokens : Nat
  output_tokens : Nat
deriving DecidableEq, Repr

/-- The dictionary `generate_json_custom_ai` returns on success. -/
structure StructuredGenerationResult where
  output : Json
  promptTokens : Nat
  completionTokens : Nat
  usage : Nat
  model : String

/-- Embedding of `generate_json_custom_ai`.  The remote endpoint is the
oracle `responses`, giving the `generate_text` result of the call made at
each retry-counter value (the request the source sends is the same
system+user pair every attempt; only the remote answer varies).  The
constructed pair is always non-empty, so `generate_text`'s empty-list guard
cannot fire.  Python's `if response.get("text"):` is falsy for both a `None`
text and an empty text; `model = system_prompt.get("model", "gpt-4o-mini")`
always finds the key because every registry entry carries one.  The second
component counts the generation calls performed. -/
def generate_json_custom_ai (message : String) (prompt_id : Int)
    (system_prompts : List SystemPrompt) (responses : Nat → GenerationResult)
    (retry_count : Nat) : Except PyError StructuredGenerationResult × Nat :=
  match system_prompts.find? (fun p => p.id == prompt_id) with
  | none =>
    (.error (.valueError ("System prompt with ID " ++ toString prompt_id ++ " not found")), 0)
  | some system_prompt =>
    let response := responses retry_count
    match response.text with
    | none => (.error (.valueError "No text in response"), 1)
    | some t =>
      if t = "" then (.error (.valueError "No text in response"), 1)
      else
        match parse_json (some (clean_response t)) with
        | none =>
          if h : retry_count < 5 then
            let res := generate_json_custom_ai message prompt_id system_prompts responses (retry_count + 1)
            (res.1, res.2 + 1)
          else
            (.error (.valueError "Exceeded retry attempts for getting JSON response from OpenAI"), 1)
        | some j =>
          if jsonFalsy j then
            if h : retry_count < 5 then
              let res := generate_json_custom_ai message prompt_id system_prompts responses (retry_count + 1)
              (res.1, res.2 + 1)
            else
              (.error (.valueError "Exceeded retry attempts for getting JSON response from OpenAI"), 1)
          else
            (.ok { output := j, promptTokens := response.input_tokens,
                   completionTokens := response.output_tokens,
                   usage := response.usage, model := system_prompt.model }, 1)
termination_by 5 - retry_count
decreasing_by
  all_goals omega

/-! ## Chat persistence utility

Modelled from the spec: the module `utils/chat_utils.py` (operations
`fetch_chat`, `add_message`, `parse_chat`) is imported by
`meta_framework.py` but absent from the source tree, so these definitions
follow the inferred contract of spec §4.2.  A store maps a session id to its
ordered transcript; a missing session and an empty transcript are both the
empty list, which callers treat as the same failure signal. -/

/-- Modelled from the spec: the embedded document store for one database
name, as a map from session id to ordered transcript (spec §4.2). -/
def Store : Type := String → List Message

/-- Modelled from the spec: `fetch_chat(db_name, chat_id)` returns the
ordered message list of the session, empty/falsy when absent (spec §4.2). -/
def fetch_chat (st : Store) (chat_id : String) : List Message := st chat_id

/-- Modelled from the spec: `add_message(db_name, chat_id, role, content)`
appends one message to the named session's transcript (spec §4.2). -/
def add_message (st : Store) (chat_id role content : String) : Store :=
  fun i => if i = chat_id then st i ++ [⟨role, content⟩] else st i

/-- Modelled from the spec: the label-prefixed rendering of one message for
`parse_chat`; system messages are excluded from the rendered block
(spec §4.2). -/
def render_message (user_role assistant_role : String) (m : Message) : Option String :=
  if m.role = "user" then some (user_role ++ ": " ++ m.content)
  else if m.role = "assistant" then some (assistant_role ++ ": " ++ m.content)
  else none

/-- Modelled from the spec: `parse_chat(db_name, chat_id, user_role,
assistant_role)` renders the transcript as one text block with each retained
message prefixed by its role's display label, and returns a falsy value (the
empty string) when the session is empty or missing (spec §4.2). -/
def parse_chat (st : Store) (chat_id user_role assistant_role : String) : String :=
  String.intercalate "\n"
    ((fetch_chat st chat_id).filterMap (render_message user_role assistant_role))

/-! ## Meta-framework core: `process_chat` (`meta_framework.py`) -/

/-- The user-prompt template of `MetaChat._get_manager_advice`. -/
def manager_user_prompt (formatted_chat : String) : String :=
  "The current conversation between the sales assistant and inquirer is as follows:\n\n"
    ++ formatted_chat
    ++ "\n\nProvide specific advice to help the sales assistant better handle this conversation."

/-- The system+user message pair `_get_manager_advice` sends. -/
def manager_messages (system_text formatted_chat : String) : List Message :=
  [⟨"system", system_text⟩, ⟨"user", manager_user_prompt formatted_chat⟩]

/-- The user-prompt template of `MetaChat._generate_enhanced_response`
(the triple-quoted f-string, including its trailing newline). -/
def enhanced_user_prompt (manager_advice formatted_chat last_user_message : String) : String :=
  "You have received the following advice from your Sales Manager:\n\n\""
    ++ manager_advice
    ++ "\"\n\nHere is the current chat:\n"
    ++ formatted_chat
    ++ "\n\nThe customer\x27s last message was:\n\""
    ++ last_user_message
    ++ "\"\n\nPlease respond to the customer's last message, applying the advice from your sales manager.\n"

/-- The system+user message pair `_generate_enhanced_response` sends. -/
def enhanced_messages (system_text manager_advice formatted_chat last_user_message : String) :
    List Message :=
  [⟨"system", system_text⟩,
   ⟨"user", enhanced_user_prompt manager_advice formatted_chat last_user_message⟩]

/-- Embedding of `MetaChat._get_manager_advice`.  `gen` is the remote
chat-completion endpoint (model, messages ↦ generated text; the pair sent is
non-empty, so `generate_text`'s empty-list guard cannot fire, and
`response.get("text", "")` is the oracle's value).  The second component
counts generation calls: none is made when the registry lookup fails. -/
def get_manager_advice (system_prompts : List SystemPrompt)
    (gen : String → List Message → String) (formatted_chat : String) :
    Except PyError String × Nat :=
  match system_prompts.find? (fun p => p.id == 1) with
  | none => (.error (.valueError "Sales manager prompt not found"), 0)
  | some sp => (.ok (gen sp.model (manager_messages sp.message formatted_chat)), 1)

/-- Embedding of `MetaChat._generate_enhanced_response`, analogous to
`get_manager_advice` but for registry entry id 2. -/
def generate_enhanced_response (system_prompts : List SystemPrompt)
    (gen : String → List Message → String)
    (formatted_chat manager_advice last_user_message : String) :
    Except PyError String × Nat :=
  match system_prompts.find? (fun p => p.id == 2) with
  | none => (.error (.valueError "Enhanced assistant prompt not found"), 0)
  | some sp =>
    (.ok (gen sp.model (enhanced_messages sp.message manager_advice formatted_chat last_user_message)), 1)

/-- The reversed scan of `process_chat` for the most recent message whose
role is "user", yielding its content. -/
def last_user_message_of (messages : List Message) : Option String :=
  (messages.reverse.find? (fun m => m.role == "user")).map Message.content

/-- The dictionary `process_chat` returns on success. -/
structure ProcessBundle where
  response : String
  meta_insights : String
  chat_id : String
deriving DecidableEq, Repr

/-- The observable outcome of one `process_chat` call: the returned bundle or
raised error, the store afterwards, and the number of generation calls
performed. -/
structure ProcessOutcome where
  result : Except PyError ProcessBundle
  store : Store
  genCalls : Nat

/-- Embedding of `MetaChat.process_chat`.  Python falsiness drives the
guards: `if not messages` is emptiness, `if not formatted_chat` is the empty
string, and `if not last_user_message` is true both when no user message
exists and when the most recent one has empty content. -/
def process_chat (st : Store) (system_prompts : List SystemPrompt)
    (gen : String → List Message → String)
    (chat_id user_role assistant_role : String) : ProcessOutcome :=
  let messages := fetch_chat st chat_id
  if messages.isEmpty then
    { result := .error (.valueError ("Chat with ID " ++ chat_id ++ " not found")),
      store := st, genCalls := 0 }
  else
    let formatted_chat := parse_chat st chat_id user_role assistant_role
    if formatted_chat = "" then
      { result := .error (.valueError ("Failed to parse chat with ID " ++ chat_id)),
        store := st, genCalls := 0 }
    else
      match last_user_message_of messages with
      | none =>
        { result := .error (.valueError "No user message found in the chat"),
          store := st, genCalls := 0 }
      | some last_user_message =>
        if last_user_message = "" then
          { result := .error (.valueError "No user message found in the chat"),
            store := st, genCalls := 0 }
        else
          match get_manager_advice system_prompts gen formatted_chat with
          | (.error e, n) => { result := .error e, store := st, genCalls := n }
          | (.ok manager_advice, n1) =>
            match generate_enhanced_response system_prompts gen formatted_chat
                manager_advice last_user_message with
            | (.error e, n2) => { result := .error e, store := st, genCalls := n1 + n2 }
            | (.ok enhanced_response, n2) =>
              { result := .ok { response := enhanced_response,
                                meta_insights := manager_advice, chat_id := chat_id },
                store := add_message st chat_id "assistant" enhanced_response,
                genCalls := n1 + n2 }

/-- One requested `add_system_prompt` call: its four arguments. -/
structure AddOp where
  pid : Int
  name : String
  message : String
  model : String

/-- Runs a sequence of `add_system_prompt` calls against a registry; a call
that raises leaves the registry as it was (the exception propagates to the
caller of that one call and the instance survives). -/
def apply_add_ops (prompts : List SystemPrompt) : List AddOp → List SystemPrompt
  | [] => prompts
  | op :: rest =>
    apply_add_ops
      (match add_system_prompt prompts op.pid op.name op.message op.model with
       | .ok l => l
       | .error _ => prompts) rest

/-! ## Theorems -/

/-- C4. Duplicate system-prompt registration is rejected atomically: a call
to `add_system_prompt` whose identifier equals the id of an existing registry
entry raises `InvalidInput` ("already exists") and leaves the registry
unchanged; a call with a fresh identifier appends exactly one new entry. -/
theorem add_system_prompt_spec (prompts : List SystemPrompt) (pid : Int)
    (name message model : String) :
    ((∃ p ∈ prompts, p.id = pid) →
      add_system_prompt prompts pid name message model
          = .error (.valueError ("System prompt with ID " ++ toString pid ++ " already exists"))
        ∧ registry_after prompts pid name message model = prompts)
    ∧ ((∀ p ∈ prompts, p.id ≠ pid) →
      add_system_prompt prompts pid name message model
        = .ok (prompts ++ [⟨pid, name, message, model⟩])) := by
  constructor
  · rintro ⟨p, hp, hid⟩
    cases hf : prompts.find? (fun q => q.id == pid) with
    | none =>
      exact absurd (by simpa using hid) (List.find?_eq_none.mp hf p hp)
    | some q =>
      exact ⟨by simp [add_system_prompt, hf], by simp [registry_after, add_system_prompt, hf]⟩
  · intro hall
    have hf : prompts.find? (fun q => q.id == pid) = none :=
      List.find?_eq_none.mpr (fun q hq => by simpa using hall q hq)
    simp [add_system_prompt, hf]

/-- Witness for `add_system_prompt_spec`: on the built-in registry, adding
with the taken id 1 fails and leaves the registry as it was, adding with the
fresh id 3 appends one entry. -/
theorem add_system_prompt_spec_witness :
    add_system_prompt default_system_prompts 1 "X" "Y" "gpt-4o"
        = .error (.valueError "System prompt with ID 1 already exists")
      ∧ registry_after default_system_prompts 1 "X" "Y" "gpt-4o" = default_system_prompts
      ∧ add_system_prompt default_system_prompts 3 "X" "Y" "gpt-4o"
        = .ok (default_system_prompts ++ [⟨3, "X", "Y", "gpt-4o"⟩]) := by
  have h1 := (add_system_prompt_spec default_system_prompts 1 "X" "Y" "gpt-4o").1
    (by decide)
  have h3 := (add_system_prompt_spec default_system_prompts 3 "X" "Y" "gpt-4o").2
    (by decide)
  exact ⟨h1.1, h1.2, h3⟩

/-- C5. Message concatenation: `add_messages` appends a single message object
as the last element, concatenates a list of message objects in order, and
raises a `TypeError` on a value that is neither. -/
theorem add_messages_spec (L : List Message) :
    (∀ m, add_messages L (.dict m) = .ok (L ++ [m]))
    ∧ (∀ M, add_messages L (.list M) = .ok (L ++ M))
    ∧ (∀ v, (∀ m, v ≠ PyValue.dict m) → (∀ M, v ≠ PyValue.list M) →
        add_messages L v = .error (.typeError "new_messages must be a dict or a list of dicts")) := by
  refine ⟨fun m => rfl, fun M => rfl, fun v h1 h2 => ?_⟩
  cases v with
  | dict m => exact absurd rfl (h1 m)
  | list ms => exact absurd rfl (h2 ms)
  | str s => rfl
  | int n => rfl

/-- Witness for `add_messages_spec`: a two-message list gains a third message
at the end, gains two messages in order, and a string argument raises. -/
theorem add_messages_spec_witness :
    add_messages [⟨"user", "a"⟩, ⟨"assistant", "b"⟩] (.dict ⟨"user", "c"⟩)
        = .ok [⟨"user", "a"⟩, ⟨"assistant", "b"⟩, ⟨"user", "c"⟩]
      ∧ add_messages [⟨"user", "a"⟩, ⟨"assistant", "b"⟩] (.list [⟨"user", "c"⟩, ⟨"assistant", "d"⟩])
        = .ok [⟨"user", "a"⟩, ⟨"assistant", "b"⟩, ⟨"user", "c"⟩, ⟨"assistant", "d"⟩]
      ∧ add_messages [⟨"user", "a"⟩, ⟨"assistant", "b"⟩] (.str "oops")
        = .error (.typeError "new_messages must be a dict or a list of dicts") := by
  have h := add_messages_spec [⟨"user", "a"⟩, ⟨"assistant", "b"⟩]
  exact ⟨h.1 ⟨"user", "c"⟩, h.2.1 [⟨"user", "c"⟩, ⟨"assistant", "d"⟩],
    h.2.2 (.str "oops") (fun m hm => PyValue.noConfusion hm) (fun M hM => PyValue.noConfusion hM)⟩

/-- C9. Non-mutation of concatenation inputs: for a valid addition,
`add_messages` builds its result as the input list followed by the addition,
so the input list survives intact as the prefix of the result (the embedding
is pure, and the source expression `messages + [...]` allocates a fresh list
rather than mutating `messages`). -/
theorem add_messages_preserves_input (L : List Message) :
    (∀ m, ∃ r, add_messages L (.dict m) = .ok r
        ∧ r.take L.length = L ∧ r.length = L.length + 1)
    ∧ (∀ M, ∃ r, add_messages L (.list M) = .ok r
        ∧ r.take L.length = L ∧ r.length = L.length + M.length) := by
  constructor
  · intro m
    exact ⟨L ++ [m], rfl, List.take_left L [m], by simp⟩
  · intro M
    exact ⟨L ++ M, rfl, List.take_left L M, by simp⟩

/-- C6 counterexample. With the API-key credential unset, the first
client-acquisition call does not return any handle at all: it raises the
Configuration error and caches nothing, so the two sequential calls of the
claim cannot "both return the same cached client handle". -/
theorem get_client_unset_first_call_fails :
    (get_client none none).1
      = .error (.valueError "OpenAI API key not set. Please set the OPENAI_API_KEY environment variable.")
    ∧ (∀ c, (get_client none none).1 ≠ .ok c)
    ∧ (get_client none none).2 = none :=
  ⟨rfl, fun _ h => Except.noConfusion h, rfl⟩

/-- C6 amended. Client acquisition with the key unset at the first call: the
first call fails with the Configuration error and leaves the cache unset; the
second call, with the key now set, constructs the handle and returns it; and
after that first successful construction acquisition is idempotent — every
later call returns the same cached handle whatever the environment then
holds, so the handle is constructed at most once. -/
theorem get_client_idempotent_after_success (k : String) (hk : k ≠ "") :
    (get_client none none).1
        = .error (.valueError "OpenAI API key not set. Please set the OPENAI_API_KEY environment variable.")
      ∧ (get_client none none).2 = none
      ∧ get_client (some k) ((get_client none none).2) = (.ok ⟨k⟩, some ⟨k⟩)
      ∧ (∀ (c : OpenAIClient) (env : Option String), get_client env (some c) = (.ok c, some c)) := by
  refine ⟨rfl, rfl, ?_, fun c env => rfl⟩
  show get_client (some k) none = _
  simp [get_client, hk]

/-- Witness for `get_client_idempotent_after_success` at the key "sk-test". -/
theorem get_client_idempotent_after_success_witness :
    (get_client none none).1
        = .error (.valueError "OpenAI API key not set. Please set the OPENAI_API_KEY environment variable.")
      ∧ (get_client none none).2 = none
      ∧ get_client (some "sk-test") ((get_client none none).2) = (.ok ⟨"sk-test"⟩, some ⟨"sk-test"⟩)
      ∧ (∀ (c : OpenAIClient) (env : Option String), get_client env (some c) = (.ok c, some c)) :=
  get_client_idempotent_after_success "sk-test" (by decide)

/-- C10. Acquisition-failure atomicity: when the API-key environment variable
is absent the acquisition call raises and the cached client state stays
unset, so a subsequent acquisition call made once a (non-empty) key is set
constructs a client from that key and returns it, rather than failing or
returning a stale handle. -/
theorem get_client_failure_leaves_cache_unset (k : String) (hk : k ≠ "") :
    (get_client none none).1
        = .error (.valueError "OpenAI API key not set. Please set the OPENAI_API_KEY environment variable.")
      ∧ (get_client none none).2 = none
      ∧ ((get_client (some k) ((get_client none none).2)).1 = .ok ⟨k⟩
        ∧ (get_client (some k) ((get_client none none).2)).2 = some ⟨k⟩) := by
  refine ⟨rfl, rfl, ?_⟩
  show (get_client (some k) none).1 = _ ∧ (get_client (some k) none).2 = _
  constructor <;> simp [get_client, hk]

/-- Witness for `get_client_failure_leaves_cache_unset` at the key "sk-abc". -/
theorem get_client_failure_leaves_cache_unset_witness :
    (get_client none none).1
        = .error (.valueError "OpenAI API key not set. Please set the OPENAI_API_KEY environment variable.")
      ∧ (get_client none none).2 = none
      ∧ ((get_client (some "sk-abc") ((get_client none none).2)).1 = .ok ⟨"sk-abc"⟩
        ∧ (get_client (some "sk-abc") ((get_client none none).2)).2 = some ⟨"sk-abc"⟩) :=
  get_client_failure_leaves_cache_unset "sk-abc" (by decide)

/-- C3. Process-chat empty-session precondition: when the fetched transcript
of the session is empty or missing, `process_chat` raises the NotFound-class
error "Chat with ID ... not found", performs no generation calls, and leaves
the store exactly as it was. -/
theorem process_chat_empty_session (st : Store) (system_prompts : List SystemPrompt)
    (gen : String → List Message → String) (chat_id user_role assistant_role : String)
    (h : fetch_chat st chat_id = []) :
    (process_chat st system_prompts gen chat_id user_role assistant_role).result
        = .error (.valueError ("Chat with ID " ++ chat_id ++ " not found"))
      ∧ (process_chat st system_prompts gen chat_id user_role assistant_role).store = st
      ∧ (process_chat st system_prompts gen chat_id user_role assistant_role).genCalls = 0 := by
  have hempty : (fetch_chat st chat_id).isEmpty = true := by rw [h]; rfl
  refine ⟨?_, ?_, ?_⟩ <;> simp [process_chat, hempty]

/-- Witness for `process_chat_empty_session`: the empty store and an
arbitrary session id. -/
theorem process_chat_empty_session_witness :
    (process_chat (fun _ => []) default_system_prompts (fun _ _ => "X")
        "missing-chat" "Inquirer" "Sales Assistant").result
        = .error (.valueError ("Chat with ID " ++ "missing-chat" ++ " not found"))
      ∧ (process_chat (fun _ => []) default_system_prompts (fun _ _ => "X")
          "missing-chat" "Inquirer" "Sales Assistant").store = (fun _ => [])
      ∧ (process_chat (fun _ => []) default_system_prompts (fun _ _ => "X")
          "missing-chat" "Inquirer" "Sales Assistant").genCalls = 0 :=
  process_chat_empty_session (fun _ => []) default_system_prompts (fun _ _ => "X")
    "missing-chat" "Inquirer" "Sales Assistant" rfl

/-- Any sequence of `add_system_prompt` calls preserves distinctness of the
registry identifiers and only ever appends to the registry. -/
theorem apply_add_ops_invariant (ops : List AddOp) :
    ∀ prompts : List SystemPrompt, (prompts.map SystemPrompt.id).Nodup →
      ((apply_add_ops prompts ops).map SystemPrompt.id).Nodup
        ∧ ∃ t, apply_add_ops prompts ops = prompts ++ t := by
  induction ops with
  | nil => exact fun prompts h => ⟨h, [], by simp [apply_add_ops]⟩
  | cons op rest ih =>
    intro prompts hnd
    cases hf : prompts.find? (fun p => p.id == op.pid) with
    | some q =>
      have hstep : apply_add_ops prompts (op :: rest) = apply_add_ops prompts rest := by
        simp [apply_add_ops, add_system_prompt, hf]
      rw [hstep]
      exact ih prompts hnd
    | none =>
      have hstep : apply_add_ops prompts (op :: rest)
          = apply_add_ops (prompts ++ [(⟨op.pid, op.name, op.message, op.model⟩ : SystemPrompt)]) rest := by
        simp [apply_add_ops, add_system_prompt, hf]
      have hnotin : op.pid ∉ prompts.map SystemPrompt.id := by
        intro hmem
        obtain ⟨p, hp, hep⟩ := List.mem_map.mp hmem
        exact absurd (by simpa using hep) (List.find?_eq_none.mp hf p hp)
      have hnd' : ((prompts ++ [(⟨op.pid, op.name, op.message, op.model⟩ : SystemPrompt)]).map SystemPrompt.id).Nodup := by
        rw [List.map_append]
        refine List.nodup_append.mpr ⟨hnd, List.nodup_singleton _, ?_⟩
        intro x hx hx'
        simp only [List.map_cons, List.map_nil, List.mem_singleton] at hx'
        exact hnotin (hx' ▸ hx)
      obtain ⟨h1, t, ht⟩ := ih (prompts ++ [(⟨op.pid, op.name, op.message, op.model⟩ : SystemPrompt)]) hnd'
      refine ⟨hstep ▸ h1, (⟨op.pid, op.name, op.message, op.model⟩ : SystemPrompt) :: t, ?_⟩
      rw [hstep, ht, List.append_assoc]
      rfl

/-- C8. Implicit registry invariant: starting from the built-in two-entry
registry (ids 1 and 2), after every finite sequence of `add_system_prompt`
calls — each one succeeding or failing — the registry identifiers remain
pairwise distinct and the two built-in entries are still the first two
entries, unremoved and unreplaced. -/
theorem registry_invariant_under_adds (ops : List AddOp) :
    ((apply_add_ops default_system_prompts ops).map SystemPrompt.id).Nodup
      ∧ (apply_add_ops default_system_prompts ops).take 2 = default_system_prompts := by
  obtain ⟨hnd, t, ht⟩ := apply_add_ops_invariant ops default_system_prompts (by decide)
  refine ⟨hnd, ?_⟩
  rw [ht]
  have hlen : default_system_prompts.length = 2 := rfl
  rw [← hlen, List.take_left]

/-- When every generation call returns non-empty text that does not parse as
JSON, `generate_json_custom_ai` started at a retry counter of `5 - k` fails
with the retry-ceiling error after exactly `k + 1` generation calls. -/
theorem gjca_always_unparsable (message : String) (prompt_id : Int)
    (system_prompts : List SystemPrompt) (responses : Nat → GenerationResult)
    (sp : SystemPrompt)
    (hfind : system_prompts.find? (fun p => p.id == prompt_id) = some sp)
    (hresp : ∀ n, ∃ t, (responses n).text = some t ∧ t ≠ ""
      ∧ parse_json (some (clean_response t)) = none) :
    ∀ k retry_count, retry_count + k = 5 →
      generate_json_custom_ai message prompt_id system_prompts responses retry_count
        = (.error (.valueError "Exceeded retry attempts for getting JSON response from OpenAI"), k + 1) := by
  intro k
  induction k with
  | zero =>
    intro rc hrc
    have h5 : rc = 5 := by omega
    subst h5
    obtain ⟨t, ht, htne, hp⟩ := hresp 5
    unfold generate_json_custom_ai
    simp [hfind, ht, htne, hp]
  | succ k ih =>
    intro rc hrc
    obtain ⟨t, ht, htne, hp⟩ := hresp rc
    have hlt : rc < 5 := by omega
    unfold generate_json_custom_ai
    simp [hfind, ht, htne, hp, hlt, ih (rc + 1) (by omega)]

/-- C2 counterexample. With the generation call always answering the
non-empty, unparsable text "not json", `generate_json_custom_ai` started at
the default retry counter 0 performs exactly 6 generation calls — the
initial attempt plus the 5 retries — before failing, so a 6th generation
call is attempted, contradicting the claim that the counter reaching 5
prevents one. -/
theorem gjca_sixth_call_attempted :
    generate_json_custom_ai "hello" 1 default_system_prompts
        (fun _ => ⟨some "not json", 0, 0, 0⟩) 0
      = (.error (.valueError "Exceeded retry attempts for getting JSON response from OpenAI"), 6) :=
  gjca_always_unparsable "hello" 1 default_system_prompts
    (fun _ => ⟨some "not json", 0, 0, 0⟩)
    ⟨1, "Sales Manager Advisor", sales_manager_message, "gpt-4o"⟩ rfl
    (fun _ => ⟨"not json", rfl, by decide, rfl⟩) 5 0 rfl

/-- C2 amended. Structured-generation retry ceiling: for every input whose
underlying generation call always returns text that is non-empty but never
parses as JSON, `generate_json_custom_ai` (called with the default retry
counter 0) recurses while the retry counter is below 5, makes one last
generation attempt once the counter reaches 5, and then fails with the
InvalidInput error "Exceeded retry attempts for getting JSON response from
OpenAI", having performed exactly 6 generation calls (the initial attempt
plus 5 retries); it never attempts a 7th. -/
theorem gjca_retry_ceiling (message : String) (prompt_id : Int)
    (system_prompts : List SystemPrompt) (responses : Nat → GenerationResult)
    (sp : SystemPrompt)
    (hfind : system_prompts.find? (fun p => p.id == prompt_id) = some sp)
    (hresp : ∀ n, ∃ t, (responses n).text = some t ∧ t ≠ ""
      ∧ parse_json (some (clean_response t)) = none) :
    generate_json_custom_ai message prompt_id system_prompts responses 0
      = (.error (.valueError "Exceeded retry attempts for getting JSON response from OpenAI"), 6) :=
  gjca_always_unparsable message prompt_id system_prompts responses sp hfind hresp 5 0 rfl

/-- Witness for `gjca_retry_ceiling`: the built-in registry, prompt id 1, and
a generation call that always answers "oops". -/
theorem gjca_retry_ceiling_witness :
    generate_json_custom_ai "hi" 1 default_system_prompts
        (fun _ => ⟨some "oops", 3, 1, 2⟩) 0
      = (.error (.valueError "Exceeded retry attempts for getting JSON response from OpenAI"), 6) :=
  gjca_retry_ceiling "hi" 1 default_system_prompts (fun _ => ⟨some "oops", 3, 1, 2⟩)
    ⟨1, "Sales Manager Advisor", sales_manager_message, "gpt-4o"⟩ rfl
    (fun _ => ⟨"oops", rfl, by decide, rfl⟩)

/-- A list is a prefix (under a lawful boolean equality) of itself followed
by anything. -/
theorem isPrefixOf_append_self {α} [BEq α] [LawfulBEq α] :
    ∀ (l t : List α), l.isPrefixOf (l ++ t) = true
  | [], _ => by simp [List.isPrefixOf]
  | a :: as, t => by simp [List.isPrefixOf, isPrefixOf_append_self as t]

/-- The skip counter of `removeAllAux` just drops that many characters. -/
theorem removeAllAux_skip (pat : List Char) : ∀ (s : List Char) (k : Nat),
    removeAllAux pat k s = removeAllAux pat 0 (s.drop k) := by
  intro s
  induction s with
  | nil => intro k; cases k <;> rfl
  | cons c rest ih =>
    intro k
    cases k with
    | zero => rfl
    | succ j =>
      show removeAllAux pat j rest = _
      rw [ih j]
      rfl

/-- The scan of `removeAllAux` deletes a pattern occurrence sitting at the
start of the input and resumes after it. -/
theorem removeAllAux_self_prefix (a : Char) (rest l : List Char) :
    removeAllAux (a :: rest) 0 ((a :: rest) ++ l) = removeAllAux (a :: rest) 0 l := by
  have hpre : (a :: rest).isPrefixOf (a :: (rest ++ l)) = true := by
    rw [← List.cons_append]
    exact isPrefixOf_append_self _ _
  rw [List.cons_append]
  simp only [removeAllAux, hpre, if_true]
  rw [removeAllAux_skip]
  have hlen : (a :: rest).length - 1 = rest.length := by simp
  rw [hlen, List.drop_left]

/-- A boolean prefix is never longer than the list it prefixes. -/
theorem isPrefixOf_length_le {α} [BEq α] : ∀ (p t : List α), p.isPrefixOf t = true → p.length ≤ t.length
  | [], _, _ => by simp
  | _ :: _, [], h => by simp [List.isPrefixOf] at h
  | a :: as, b :: bs, h => by
    simp only [List.isPrefixOf, Bool.and_eq_true] at h
    have := isPrefixOf_length_le as bs h.2
    simp only [List.length_cons]
    omega

/-- Unfolds one step of the `fence_free` scan. -/
theorem fence_free_cons (a : Char) (s : List Char) (h : fence_free (a :: s) = true) :
    fence_pat.isPrefixOf (a :: s) = false ∧ fence_free s = true := by
  rw [show fence_free (a :: s) = (!(fence_pat.isPrefixOf (a :: s)) && fence_free s) from rfl] at h
  rw [Bool.and_eq_true] at h
  exact ⟨by rw [← Bool.not_eq_true']; exact h.1, h.2⟩

/-- If "```" does not start at the head of `l`, then "```json" does not start
there either once the closing fence is appended: a match would need its first
three characters to be backquotes inside `l` (giving a "```" occurrence
there), or `l` shorter than three characters, leaving fewer than the seven
characters "```json" needs. -/
theorem fence_json_not_prefix_of_no_fence (l : List Char)
    (hnp : fence_pat.isPrefixOf l = false) :
    fence_json_pat.isPrefixOf (l ++ fence_pat) = false := by
  cases hb : fence_json_pat.isPrefixOf (l ++ fence_pat) with
  | false => rfl
  | true =>
    exfalso
    have h7 : fence_json_pat.length = 7 := by decide
    have hlen := isPrefixOf_length_le _ _ hb
    rw [h7, List.length_append, show fence_pat.length = 3 from by decide] at hlen
    cases l with
    | nil => exact absurd hb (by decide)
    | cons a l1 =>
      cases l1 with
      | nil => simp at hlen
      | cons b l2 =>
        cases l2 with
        | nil => simp at hlen
        | cons c l3 =>
          have hfj : fence_json_pat
              = backquote :: backquote :: backquote :: 'j' :: 's' :: 'o' :: 'n' :: [] := by decide
          have hfp : fence_pat = [backquote, backquote, backquote] := by decide
          rw [hfj] at hb
          simp only [List.cons_append, List.isPrefixOf, Bool.and_eq_true, beq_iff_eq] at hb
          rw [hfp] at hnp
          obtain ⟨ha, hbb, hcc, _⟩ := hb
          rw [← ha, ← hbb, ← hcc] at hnp
          simp at hnp

/-- Deleting "```json" from a fence-free text followed by the closing fence
changes nothing: no occurrence of "```json" exists anywhere in it. -/
theorem removeAll_fence_json_tail : ∀ s : List Char, fence_free s = true →
    removeAll fence_json_pat (s ++ fence_pat) = s ++ fence_pat := by
  intro s
  induction s with
  | nil => intro _; decide
  | cons a s' ih =>
    intro hff
    obtain ⟨hnp, hff'⟩ := fence_free_cons a s' hff
    have hc := fence_json_not_prefix_of_no_fence (a :: s') hnp
    show removeAllAux fence_json_pat 0 ((a :: s') ++ fence_pat) = (a :: s') ++ fence_pat
    rw [List.cons_append]
    rw [List.cons_append] at hc
    simp only [removeAllAux, hc, Bool.false_eq_true, if_false]
    rw [show removeAllAux fence_json_pat 0 (s' ++ fence_pat)
        = removeAll fence_json_pat (s' ++ fence_pat) from rfl]
    rw [ih hff']

/-- Deleting "```json" removes exactly the leading fence marker. -/
theorem removeAll_fence_json_prefix (l : List Char) :
    removeAll fence_json_pat (fence_json_pat ++ l) = removeAll fence_json_pat l := by
  have h : fence_json_pat = backquote :: "``json".data := by decide
  show removeAllAux fence_json_pat 0 (fence_json_pat ++ l) = removeAllAux fence_json_pat 0 l
  rw [h]
  exact removeAllAux_self_prefix _ _ _

/-- Deleting "```" from a fence-free text followed by the closing fence gives
back exactly the text.  When the text ends in one or two backquotes they merge
with the appended fence; the left-to-right scan then deletes three backquotes
of the merged run starting at the leftmost, and the run's remaining
backquotes reproduce the text's own trailing ones, so the characters of the
result are unchanged. -/
theorem removeAll_fence_tail : ∀ s : List Char, fence_free s = true →
    removeAll fence_pat (s ++ fence_pat) = s := by
  intro s
  induction s with
  | nil => intro _; decide
  | cons a s' ih =>
    intro hff
    obtain ⟨hnp, hff'⟩ := fence_free_cons a s' hff
    cases hcur : fence_pat.isPrefixOf ((a :: s') ++ fence_pat) with
    | false =>
      show removeAllAux fence_pat 0 ((a :: s') ++ fence_pat) = a :: s'
      rw [List.cons_append]
      rw [List.cons_append] at hcur
      simp only [removeAllAux, hcur, Bool.false_eq_true, if_false]
      rw [show removeAllAux fence_pat 0 (s' ++ fence_pat)
          = removeAll fence_pat (s' ++ fence_pat) from rfl]
      rw [ih hff']
    | true =>
      have hfp : fence_pat = [backquote, backquote, backquote] := by decide
      cases s' with
      | nil =>
        rw [List.cons_append, hfp] at hcur
        simp only [List.isPrefixOf, List.nil_append, Bool.and_eq_true, beq_iff_eq] at hcur
        obtain ⟨ha, _⟩ := hcur
        show removeAll fence_pat ([a] ++ fence_pat) = [a]
        rw [← ha]
        decide
      | cons b s'' =>
        cases s'' with
        | nil =>
          rw [List.cons_append, List.cons_append, hfp] at hcur
          simp only [List.isPrefixOf, List.nil_append, Bool.and_eq_true, beq_iff_eq] at hcur
          obtain ⟨ha, hbb, _⟩ := hcur
          show removeAll fence_pat ([a, b] ++ fence_pat) = [a, b]
          rw [← ha, ← hbb]
          decide
        | cons c s3 =>
          exfalso
          rw [hfp] at hcur hnp
          simp only [List.cons_append, List.isPrefixOf, Bool.and_eq_true, beq_iff_eq] at hcur
          obtain ⟨ha, hbb, hcc, _⟩ := hcur
          rw [← ha, ← hbb, ← hcc] at hnp
          simp at hnp

/-- Rebuilding a string from its character list is the identity. -/
theorem string_mk_data (s : String) : String.mk s.data = s := rfl

/-- C7 counterexample. A JSON object whose text itself contains the fence
marker "```" inside a string value is corrupted by the fence stripping: the
wrapped text parses to an object whose value is "```", but cleaning the
fenced generation text deletes the inner marker too, so parsing yields the
object with value "" instead of the wrapped object. -/
theorem clean_response_corrupts_inner_fence :
    parse_json (some "\n\x7b\"a\":\"```\"\x7d\n")
        = some (Json.obj [("a", Json.str "```")])
      ∧ "```json" ++ "\n\x7b\"a\":\"```\"\x7d\n" ++ "```"
        = "```json\n\x7b\"a\":\"```\"\x7d\n```"
      ∧ parse_json (some (clean_response "```json\n\x7b\"a\":\"```\"\x7d\n```"))
        = some (Json.obj [("a", Json.str "")])
      ∧ some (Json.obj [("a", Json.str "")]) ≠ some (Json.obj [("a", Json.str "```")]) := by
  refine ⟨rfl, rfl, rfl, ?_⟩
  intro h
  injection h with h1
  injection h1 with h2
  injection h2 with h3 h4
  injection h3 with h5 h6
  injection h6 with h7
  exact absurd h7 (by decide)

/-- C7 amended. JSON fence cleaning: for a generation response whose text is
a JSON value wrapped in Markdown code fences (the literal characters
```json before it and ``` after it), provided the wrapped text contains no
occurrence of the fence marker "```" of its own (isolated single or double
backquotes are fine), stripping the fence markers and then parsing yields
the wrapped JSON value; in particular the text "```json\n{"a":1}\n```"
parses to the object {"a": 1}. -/
theorem clean_response_fenced_parses (s : String) (j : Json)
    (hff : fence_free s.data = true)
    (hp : parse_json (some s) = some j) :
    parse_json (some (clean_response ("```json" ++ s ++ "```"))) = some j := by
  have hdata : ("```json" ++ s ++ "```").data = fence_json_pat ++ (s.data ++ fence_pat) := by
    simp [String.data_append, fence_json_pat, fence_pat, List.append_assoc]
  rw [show clean_response ("```json" ++ s ++ "```")
      = String.mk (removeAll fence_pat (removeAll fence_json_pat ("```json" ++ s ++ "```").data)) from rfl]
  rw [hdata, removeAll_fence_json_prefix, removeAll_fence_json_tail s.data hff,
    removeAll_fence_tail s.data hff, string_mk_data]
  exact hp

/-- Witness for `clean_response_fenced_parses`: the spec's literal example
text "```json\n{"a":1}\n```" parses to the object {"a": 1} after cleaning,
and a wrapped object whose string value is the double backquote "``" — a
payload with backquotes but no fence marker — survives cleaning and parses
back to itself. -/
theorem clean_response_fenced_parses_witness :
    parse_json (some (clean_response ("```json" ++ "\n\x7b\"a\":1\x7d\n" ++ "```")))
        = some (Json.obj [("a", Json.num 1)])
      ∧ parse_json (some (clean_response ("```json" ++ "\n\x7b\"a\":\"``\"\x7d\n" ++ "```")))
        = some (Json.obj [("a", Json.str "``")]) :=
  ⟨clean_response_fenced_parses "\n\x7b\"a\":1\x7d\n" (Json.obj [("a", Json.num 1)])
    (by decide) rfl,
   clean_response_fenced_parses "\n\x7b\"a\":\"``\"\x7d\n" (Json.obj [("a", Json.str "``")])
    (by decide) rfl⟩

set_option maxRecDepth 4096 in
/-- C1 counterexample. A session whose transcript is exactly one user message
with empty content defeats the happy path: Python's `if not last_user_message`
is true for the empty string, so `process_chat` raises "No user message found
in the chat", makes no generation call (even though the generation oracle
would answer "X" for both calls, i.e. A = R = "X"), and appends nothing — the
returned bundle and the two-message transcript promised by the claim never
appear. -/
theorem process_chat_empty_content_fails :
    (process_chat (fun i => if i = "chat-1" then [⟨"user", ""⟩] else [])
        default_system_prompts (fun _ _ => "X") "chat-1" "Inquirer" "Sales Assistant").result
        = .error (.valueError "No user message found in the chat")
      ∧ (process_chat (fun i => if i = "chat-1" then [⟨"user", ""⟩] else [])
          default_system_prompts (fun _ _ => "X") "chat-1" "Inquirer" "Sales Assistant").store "chat-1"
        = [⟨"user", ""⟩]
      ∧ (process_chat (fun i => if i = "chat-1" then [⟨"user", ""⟩] else [])
          default_system_prompts (fun _ _ => "X") "chat-1" "Inquirer" "Sales Assistant").genCalls = 0 :=
  ⟨rfl, rfl, rfl⟩

/-- C1 amended. Process chat happy path: for a session whose transcript is
exactly one user message with non-empty content, if the supervisory
generation call returns advice text A and the enhancement generation call
returns reply text R, then `process_chat` returns a bundle whose `response`
is R, whose `meta_insights` is A and whose `chat_id` is the given session id,
exactly two generation calls are made, and afterwards the session's
transcript is exactly the original user message followed by a new message
with role "assistant" and content R. -/
theorem process_chat_happy_path (st : Store) (chat_id content A R : String)
    (gen : String → List Message → String)
    (hst : fetch_chat st chat_id = [⟨"user", content⟩])
    (hc : content ≠ "")
    (hA : gen "gpt-4o" (manager_messages sales_manager_message
        (parse_chat st chat_id "Inquirer" "Sales Assistant")) = A)
    (hR : gen "gpt-4o" (enhanced_messages enhanced_assistant_message A
        (parse_chat st chat_id "Inquirer" "Sales Assistant") content) = R) :
    (process_chat st default_system_prompts gen chat_id "Inquirer" "Sales Assistant").result
        = .ok ⟨R, A, chat_id⟩
      ∧ (process_chat st default_system_prompts gen chat_id "Inquirer" "Sales Assistant").store chat_id
        = [⟨"user", content⟩, ⟨"assistant", R⟩]
      ∧ (process_chat st default_system_prompts gen chat_id "Inquirer" "Sales Assistant").genCalls = 2 := by
  have hst' : st chat_id = [(⟨"user", content⟩ : Message)] := hst
  have hformatted : parse_chat st chat_id "Inquirer" "Sales Assistant"
      = "Inquirer: " ++ content := by
    simp [parse_chat, hst, render_message, String.intercalate]
    rfl
  have hne : parse_chat st chat_id "Inquirer" "Sales Assistant" ≠ "" := by
    rw [hformatted]
    intro h
    have hlen := congrArg String.length h
    simp [String.length_append] at hlen
    exact absurd hlen.1 (by decide)
  have hlum : last_user_message_of [(⟨"user", content⟩ : Message)] = some content := rfl
  have hf1 : default_system_prompts.find? (fun p => p.id == 1)
      = some ⟨1, "Sales Manager Advisor", sales_manager_message, "gpt-4o"⟩ := rfl
  have hf2 : default_system_prompts.find? (fun p => p.id == 2)
      = some ⟨2, "Enhanced Sales Assistant", enhanced_assistant_message, "gpt-4o"⟩ := rfl
  refine ⟨?_, ?_, ?_⟩ <;>
    simp [process_chat, hst, hst', hne, hlum, hc, get_manager_advice, generate_enhanced_response,
      hf1, hf2, hA, hR, add_message]

/-- The concrete store of the witness scenario: one session ("chat-7") whose
transcript is a single user message. -/
def demo_store : Store :=
  fun i => if i = "chat-7" then [⟨"user", "I need a laptop for video editing"⟩] else []

/-- The concrete generation oracle of the witness scenario: it answers the
advice text when addressed with the sales-manager system framing and the
reply text otherwise. -/
def demo_gen : String → List Message → String := fun _ ms =>
  match ms with
  | ⟨"system", t⟩ :: _ =>
    if t = sales_manager_message then "Ask about budget and use case"
    else "Great choice - for video editing, what is your budget range?"
  | _ => ""

set_option maxRecDepth 8192 in
/-- Witness for `process_chat_happy_path`: the spec's literal scenario, with
the store holding the single user message "I need a laptop for video
editing". -/
theorem process_chat_happy_path_witness :
    (process_chat demo_store default_system_prompts demo_gen
        "chat-7" "Inquirer" "Sales Assistant").result
        = .ok ⟨"Great choice - for video editing, what is your budget range?",
               "Ask about budget and use case", "chat-7"⟩
      ∧ (process_chat demo_store default_system_prompts demo_gen
          "chat-7" "Inquirer" "Sales Assistant").store "chat-7"
        = [⟨"user", "I need a laptop for video editing"⟩,
           ⟨"assistant", "Great choice - for video editing, what is your budget range?"⟩]
      ∧ (process_chat demo_store default_system_prompts demo_gen
          "chat-7" "Inquirer" "Sales Assistant").genCalls = 2 :=
  process_chat_happy_path demo_store "chat-7" "I need a laptop for video editing"
    "Ask about budget and use case"
    "Great choice - for video editing, what is your budget range?"
    demo_gen rfl (by decide) rfl rfl
